import Mathlib

/-!
Verification of the Black-Scholes options pricing calculator repository.

The repository ships a React/TypeScript frontend (under `frontend/src/`) and
documents a Python/FastAPI pricing backend in its README.  The frontend form
validators and batch-input handlers are embedded here directly from the
TypeScript source; the backend pricing engine (input validator, normal CDF,
pricing formula, batch evaluator) is not part of the available sources and is
modelled from the specification's formulas, over the real numbers.
-/

namespace Frontend

/-- The six field names of the calculator form (`CalculationInput` keys in
`frontend/src/components/CalculatorForm.tsx`, in `Object.keys` insertion
order `s0, x, t, r, d, v`). -/
inductive FieldName where
  | s0
  | x
  | t
  | r
  | d
  | v
deriving DecidableEq, Repr

/-- The display string of a field name, as interpolated into the error
messages of `validateField`. -/
def FieldName.str : FieldName → String
  | .s0 => "s0"
  | .x => "x"
  | .t => "t"
  | .r => "r"
  | .d => "d"
  | .v => "v"

/-- State of one form field.  `handleChange` stores `''` for an empty input
(`value === '' ? '' : parseFloat(value)`), `parseFloat` of an unparseable
string yields `NaN`, and otherwise the field holds a finite number (modelled
as a rational, faithful for the order comparisons and divisions by 100 the
form performs). -/
inductive FieldValue where
  | empty
  | nan
  | num (q : ℚ)
deriving DecidableEq, Repr

/-- Numeric content of a field; the form only reads it on fields that passed
validation, which are necessarily `num`. -/
def FieldValue.toNum : FieldValue → ℚ
  | .num q => q
  | _ => 0

/-- The `formData` state of the calculator form: one value per field. -/
structure FormData where
  s0 : FieldValue
  x : FieldValue
  t : FieldValue
  r : FieldValue
  d : FieldValue
  v : FieldValue
deriving DecidableEq, Repr

/-- Field lookup, `formData[key]`. -/
def FormData.get (fd : FormData) : FieldName → FieldValue
  | .s0 => fd.s0
  | .x => fd.x
  | .t => fd.t
  | .r => fd.r
  | .d => fd.d
  | .v => fd.v

/-- `Object.keys(formData)` in insertion order. -/
def formKeys : List FieldName := [.s0, .x, .t, .r, .d, .v]

/-- Payload handed to `onSubmit` (the TypeScript `CalculationInput` sent to
the backend API). -/
structure Payload where
  s0 : ℚ
  x : ℚ
  t : ℚ
  r : ℚ
  d : ℚ
  v : ℚ
deriving DecidableEq, Repr

namespace CalculatorForm

/-- `validateField` of the percent-only `CalculatorForm.tsx` variant:
empty values report `is required` (the `value === NaN` comparison on the
preceding line is always false in JavaScript), `NaN` reports `must be a
number`, `s0`/`x`/`t` must be strictly positive, and the rate fields
`r`/`d`/`v` must lie in the percentage range `[0, 100]`. -/
def validateField (name : FieldName) (value : FieldValue) : Option String :=
  match value with
  | .empty => some (name.str ++ " is required")
  | .nan => some (name.str ++ " must be a number")
  | .num q =>
    match name with
    | .s0 | .x | .t =>
      if q ≤ 0 then some (name.str ++ " must be greater than 0") else none
    | .r | .d | .v =>
      if q < 0 ∨ 100 < q then
        some (name.str ++ " should be between 0 and 100")
      else none

/-- The `newErrors` record collected by `handleSubmit`: it runs
`validateField` on every key of `formData` and keeps every produced error,
not only the first. -/
def formErrors (fd : FormData) : List (FieldName × String) :=
  formKeys.filterMap fun k => (validateField k (fd.get k)).map fun m => (k, m)

/-- `handleSubmit` of the percent-only form: if any field has a validation
error, the errors are displayed and `onSubmit` is not called (`none`);
otherwise the payload is built from `formData` with `r`, `d`, `v` divided by
100 (percent to decimal) and passed to `onSubmit` (`some`). -/
def handleSubmit (fd : FormData) : Option Payload :=
  if formErrors fd = [] then
    some ⟨fd.s0.toNum, fd.x.toNum, fd.t.toNum,
          fd.r.toNum / 100, fd.d.toNum / 100, fd.v.toNum / 100⟩
  else none

end CalculatorForm

namespace ToggleForm

/-- The `percent`/`decimal` rate-input mode of the second `CalculatorForm`
variant and of `BatchCalculator.tsx`. -/
inductive RateMode where
  | percent
  | decimal
deriving DecidableEq, Repr

/-- `validateField` of the mode-toggle `CalculatorForm` variant: identical to
the percent-only validator except on the rate fields, where percent mode
enforces the `[0, 100]` range and decimal mode only rejects negative
values. -/
def validateField (mode : RateMode) (name : FieldName) (value : FieldValue) :
    Option String :=
  match value with
  | .empty => some (name.str ++ " is required")
  | .nan => some (name.str ++ " must be a number")
  | .num q =>
    match name with
    | .s0 | .x | .t =>
      if q ≤ 0 then some (name.str ++ " must be greater than 0") else none
    | .r | .d | .v =>
      match mode with
      | .percent =>
        if q < 0 ∨ 100 < q then
          some (name.str ++ " should be between 0 and 100 when entered as a percentage")
        else none
      | .decimal =>
        if q < 0 then some (name.str ++ " must be non-negative") else none

/-- `toDecimal` of the toggle form: divide by 100 in percent mode, identity
in decimal mode. -/
def toDecimal (mode : RateMode) (q : ℚ) : ℚ :=
  match mode with
  | .percent => q / 100
  | .decimal => q

/-- Collected `newErrors` of the toggle form's `handleSubmit`. -/
def formErrors (mode : RateMode) (fd : FormData) : List (FieldName × String) :=
  formKeys.filterMap fun k => (validateField mode k (fd.get k)).map fun m => (k, m)

/-- `handleSubmit` of the toggle form. -/
def handleSubmit (mode : RateMode) (fd : FormData) : Option Payload :=
  if formErrors mode fd = [] then
    some ⟨fd.s0.toNum, fd.x.toNum, fd.t.toNum,
          toDecimal mode fd.r.toNum, toDecimal mode fd.d.toNum,
          toDecimal mode fd.v.toNum⟩
  else none

end ToggleForm

namespace BatchCalculator

/-- One row of the `BatchCalculator.tsx` input table (fields are plain
numbers; the component keeps no per-field error state at all). -/
structure BatchRow where
  s0 : ℚ
  x : ℚ
  t : ℚ
  r : ℚ
  d : ℚ
  v : ℚ
deriving DecidableEq, Repr

/-- The value stored by every `onChange` handler of the batch table:
`parseFloat(e.target.value) || 0`.  `parseFloat` of an empty or unparseable
string is `NaN` (modelled as `none`); the JavaScript `|| 0` then substitutes
`0` (it also maps a parsed `0` to `0`, which is the identity). -/
def onChangeValue (raw : Option ℚ) : ℚ :=
  match raw with
  | none => 0
  | some q => q

/-- `updateCalculation` as invoked by the `onChange` handlers: overwrite the
field with the coerced value; no validation failure is recorded (the return
type has no error channel). -/
def updateCalculation (row : BatchRow) (f : FieldName) (raw : Option ℚ) :
    BatchRow :=
  match f with
  | .s0 => { row with s0 := onChangeValue raw }
  | .x => { row with x := onChangeValue raw }
  | .t => { row with t := onChangeValue raw }
  | .r => { row with r := onChangeValue raw }
  | .d => { row with d := onChangeValue raw }
  | .v => { row with v := onChangeValue raw }

end BatchCalculator

/-- Form data for the zero-volatility probe: the form defaults with `v = 0`. -/
def fdZeroVol : FormData := ⟨.num 100, .num 100, .num 1, .num 5, .num 2, .num 0⟩

/-- Form data for the claim's explicit example
`{s0: -1, x: 100, t: 1, r: 0.05, d: 0.02, v: 0.2}`. -/
def fdNegS0 : FormData :=
  ⟨.num (-1), .num 100, .num 1, .num 0.05, .num 0.02, .num 0.2⟩

/-- Default form data of the percent-only form. -/
def fdDefault : FormData := ⟨.num 100, .num 100, .num 1, .num 5, .num 2, .num 20⟩

/-- The payload the percent-only form submits for its default values. -/
def payDefault : Payload := ⟨100, 100, 1, 1/20, 1/50, 1/5⟩

end Frontend

open MeasureTheory ProbabilityTheory

namespace BlackScholes

/-- Modelled from the spec: the engine's input record `CalculationInput`
`{s0, x, t, r, d, v}` of `backend/app/black_scholes.py` and
`backend/app/schemas.py`, which are not under the available sources (only
the README and the frontend callers are); all six market parameters are
double-precision floats, modelled as reals. -/
structure CalculationInput where
  s0 : ℝ
  x : ℝ
  t : ℝ
  r : ℝ
  d : ℝ
  v : ℝ

/-- Modelled from the spec: the engine's output record `CalculationResult`
`{s0, x, t, r, d, v, call_price, put_price, d1, d2}` (identifier and
timestamp are attached downstream by the persistence collaborator, not by
the engine). -/
structure CalculationResult where
  s0 : ℝ
  x : ℝ
  t : ℝ
  r : ℝ
  d : ℝ
  v : ℝ
  call_price : ℝ
  put_price : ℝ
  d1 : ℝ
  d2 : ℝ

/-- Modelled from the spec: `NormalCDF`, the cumulative standard normal
distribution function N(x) (implemented in the missing backend via
`scipy.stats.norm.cdf`), as the integral of the standard Gaussian density
over `(-∞, x]`. -/
noncomputable def normalCDF (x : ℝ) : ℝ :=
  ∫ t in Set.Iic x, gaussianPDFReal 0 1 t

/-- Modelled from the spec: the intermediate
`d1 = (ln(s0/x) + (r - d + 0.5*v^2)*t) / (v*sqrt(t))` of the missing
`black_scholes.py`, as documented in the README formula section. -/
noncomputable def d1 (i : CalculationInput) : ℝ :=
  (Real.log (i.s0 / i.x) + (i.r - i.d + 0.5 * i.v ^ 2) * i.t)
    / (i.v * Real.sqrt i.t)

/-- Modelled from the spec: the intermediate `d2 = d1 - v*sqrt(t)`. -/
noncomputable def d2 (i : CalculationInput) : ℝ := d1 i - i.v * Real.sqrt i.t

/-- Modelled from the spec: `PricingFormula` of the missing
`black_scholes.py` — `call = s0*exp(-d*t)*N(d1) - x*exp(-r*t)*N(d2)` and
`put = x*exp(-r*t)*N(-d2) - s0*exp(-d*t)*N(-d1)`. -/
noncomputable def pricingFormula (i : CalculationInput) : CalculationResult :=
  { s0 := i.s0, x := i.x, t := i.t, r := i.r, d := i.d, v := i.v
    call_price := i.s0 * Real.exp (-i.d * i.t) * normalCDF (d1 i)
      - i.x * Real.exp (-i.r * i.t) * normalCDF (d2 i)
    put_price := i.x * Real.exp (-i.r * i.t) * normalCDF (-(d2 i))
      - i.s0 * Real.exp (-i.d * i.t) * normalCDF (-(d1 i))
    d1 := d1 i
    d2 := d2 i }

/-- Modelled from the spec: `InputValidator` of the missing backend
validation layer — the structured, per-field list of violations, collected
for every offending field (`s0 <= 0`, `x <= 0`, `t <= 0`, `v <= 0`; no
constraint on `r` or `d` at the core level). -/
noncomputable def violations (i : CalculationInput) : List String :=
  (if i.s0 ≤ 0 then ["s0 must be greater than 0"] else [])
  ++ (if i.x ≤ 0 then ["x must be greater than 0"] else [])
  ++ (if i.t ≤ 0 then ["t must be greater than 0"] else [])
  ++ (if i.v ≤ 0 then ["v must be greater than 0"] else [])

/-- Modelled from the spec: the engine operation
`price(input) -> Result<CalculationResult, ValidationError>` of the missing
backend — validate, then apply the pricing formula. -/
noncomputable def price (i : CalculationInput) :
    Except (List String) CalculationResult :=
  if violations i = [] then .ok (pricingFormula i) else .error (violations i)

/-- Modelled from the spec: the batch aggregate `BatchResult`
`{results, total, successful, failed}` of the missing batch endpoint. -/
structure BatchResult where
  results : List CalculationResult
  total : ℕ
  successful : ℕ
  failed : ℕ

/-- Modelled from the spec: `BatchEvaluator` / `priceBatch` of the missing
`POST /api/calculate/batch` handler — each row is validated and priced
independently, in the given order; a failing row is counted in `failed` and
omitted from `results` without aborting the siblings. -/
noncomputable def priceBatch : List CalculationInput → BatchResult
  | [] => ⟨[], 0, 0, 0⟩
  | i :: rest =>
    let b := priceBatch rest
    if violations i = [] then
      ⟨pricingFormula i :: b.results, b.total + 1, b.successful + 1, b.failed⟩
    else
      ⟨b.results, b.total + 1, b.successful, b.failed + 1⟩

/-- The README's documented reference input
`{s0:100, x:100, t:1, r:0.05, d:0.02, v:0.2}`. -/
noncomputable def refInput : CalculationInput := ⟨100, 100, 1, 0.05, 0.02, 0.2⟩

/-- First row of the batch partial-failure scenario (valid). -/
noncomputable def batchIn1 : CalculationInput := ⟨100, 100, 1, 0.05, 0.02, 0.2⟩

/-- Second row of the batch partial-failure scenario: `t = -1`, invalid. -/
noncomputable def batchIn2 : CalculationInput := ⟨110, 100, -1, 0.03, 0.01, 0.25⟩

/-- Third row of the batch partial-failure scenario (valid). -/
noncomputable def batchIn3 : CalculationInput := ⟨110, 100, 0.5, 0.03, 0.01, 0.25⟩

end BlackScholes

namespace BlackScholes

/-- The standard Gaussian density is even. -/
lemma stdGaussian_even (t : ℝ) :
    gaussianPDFReal 0 1 (-t) = gaussianPDFReal 0 1 t := by
  simp [gaussianPDFReal, neg_sq]

/-- The standard Gaussian density is integrable. -/
lemma integrable_stdGaussian : Integrable (gaussianPDFReal 0 1) :=
  integrable_gaussianPDFReal 0 1

/-- The standard Gaussian density integrates to one. -/
lemma integral_stdGaussian : ∫ t, gaussianPDFReal 0 1 t = 1 :=
  integral_gaussianPDFReal_eq_one 0 one_ne_zero

/-- Reflection identity of the normal CDF: `N(-x) = 1 - N(x)`, exactly. -/
lemma normalCDF_neg (x : ℝ) : normalCDF (-x) = 1 - normalCDF x := by
  have heven : (∫ t in Set.Iic (-x), gaussianPDFReal 0 1 t)
      = ∫ t in Set.Iic (-x), gaussianPDFReal 0 1 (-t) := by
    refine setIntegral_congr_fun measurableSet_Iic fun t _ => ?_
    rw [stdGaussian_even]
  have hneg : (∫ t in Set.Iic (-x), gaussianPDFReal 0 1 (-t))
      = ∫ t in Set.Ioi x, gaussianPDFReal 0 1 t := by
    rw [integral_comp_neg_Iic, neg_neg]
  have hsplit : (∫ t in Set.Iic x, gaussianPDFReal 0 1 t)
      + (∫ t in Set.Ioi x, gaussianPDFReal 0 1 t) = 1 := by
    rw [intervalIntegral.integral_Iic_add_Ioi integrable_stdGaussian.integrableOn
      integrable_stdGaussian.integrableOn, integral_stdGaussian]
  unfold normalCDF
  rw [heven, hneg]
  linarith

/-- `N(0) = 1/2`, exactly. -/
lemma normalCDF_zero : normalCDF 0 = 1 / 2 := by
  have h := normalCDF_neg 0
  rw [neg_zero] at h
  linarith

/-- The normal CDF is nonnegative. -/
lemma normalCDF_nonneg (x : ℝ) : 0 ≤ normalCDF x :=
  setIntegral_nonneg measurableSet_Iic fun t _ => gaussianPDFReal_nonneg 0 1 t

/-- The normal CDF is at most one. -/
lemma normalCDF_le_one (x : ℝ) : normalCDF x ≤ 1 := by
  have h := setIntegral_le_integral (s := Set.Iic x) integrable_stdGaussian
    (Filter.Eventually.of_forall fun t => gaussianPDFReal_nonneg 0 1 t)
  rw [integral_stdGaussian] at h
  exact h

/-- The validator accepts an input exactly when all four constrained fields
are strictly positive. -/
lemma violations_eq_nil_iff (i : CalculationInput) :
    violations i = [] ↔ 0 < i.s0 ∧ 0 < i.x ∧ 0 < i.t ∧ 0 < i.v := by
  unfold violations
  split_ifs with h1 h2 h3 h4 <;> simp_all [not_le]

/-- Exact algebraic form of put-call parity for the pricing formula. -/
lemma parity_core (i : CalculationInput) :
    (pricingFormula i).call_price - (pricingFormula i).put_price
      = i.s0 * Real.exp (-i.d * i.t) - i.x * Real.exp (-i.r * i.t) := by
  have h1 := normalCDF_neg (d1 i)
  have h2 := normalCDF_neg (d2 i)
  simp only [pricingFormula]
  rw [h1, h2]
  ring

/-- At the reference input, `d1` evaluates exactly to `0.25`. -/
lemma d1_ref : d1 refInput = 0.25 := by
  unfold d1 refInput
  simp only
  rw [div_self (by norm_num : (100:ℝ) ≠ 0), Real.log_one, Real.sqrt_one]
  norm_num

/-- At the reference input, `d2` evaluates exactly to `0.05`. -/
lemma d2_ref : d2 refInput = 0.05 := by
  unfold d2
  rw [d1_ref]
  unfold refInput
  simp only
  rw [Real.sqrt_one]
  norm_num

/-- The reference input passes validation. -/
lemma ref_valid : violations refInput = [] := by
  rw [violations_eq_nil_iff]
  unfold refInput
  norm_num

/-- Pricing succeeds on the reference input. -/
lemma price_ref : price refInput = .ok (pricingFormula refInput) := by
  unfold price
  rw [if_pos ref_valid]

end BlackScholes

namespace Frontend

/-- Every field name occurs in `formKeys`. -/
lemma mem_formKeys (k : FieldName) : k ∈ formKeys := by
  cases k <;> simp [formKeys]

/-- The percent-only form has no errors exactly when every field validates. -/
lemma pct_formErrors_eq_nil_iff (fd : FormData) :
    CalculatorForm.formErrors fd = []
      ↔ ∀ k, CalculatorForm.validateField k (fd.get k) = none := by
  unfold CalculatorForm.formErrors
  rw [List.filterMap_eq_nil_iff]
  constructor
  · intro h k
    have hk := h k (mem_formKeys k)
    rwa [Option.map_eq_none'] at hk
  · intro h k _
    rw [h k]
    rfl

/-- Per-field acceptance condition of the percent-only validator on numeric
values. -/
lemma pct_validateField_none_iff (k : FieldName) (q : ℚ) :
    CalculatorForm.validateField k (.num q) = none
      ↔ (match k with
          | .s0 | .x | .t => 0 < q
          | _ => 0 ≤ q ∧ q ≤ 100) := by
  cases k <;>
    simp [CalculatorForm.validateField, ite_eq_right_iff, not_le, not_lt, not_or]

/-- Every error produced by the percent-only validator on some field is
collected in `formErrors` (not only the first). -/
lemma pct_formErrors_complete (fd : FormData) (k : FieldName) (m : String)
    (h : CalculatorForm.validateField k (fd.get k) = some m) :
    (k, m) ∈ CalculatorForm.formErrors fd := by
  unfold CalculatorForm.formErrors
  rw [List.mem_filterMap]
  exact ⟨k, mem_formKeys k, by rw [h]; rfl⟩

/-- Every error produced by the toggle-form validator on some field is
collected in its `formErrors`. -/
lemma toggle_formErrors_complete (mode : ToggleForm.RateMode) (fd : FormData)
    (k : FieldName) (m : String)
    (h : ToggleForm.validateField mode k (fd.get k) = some m) :
    (k, m) ∈ ToggleForm.formErrors mode fd := by
  unfold ToggleForm.formErrors
  rw [List.mem_filterMap]
  exact ⟨k, mem_formKeys k, by rw [h]; rfl⟩

/-- The toggle form does not submit while any field has an error. -/
lemma toggle_handleSubmit_eq_none (mode : ToggleForm.RateMode) (fd : FormData)
    (h : ToggleForm.formErrors mode fd ≠ []) :
    ToggleForm.handleSubmit mode fd = none := by
  unfold ToggleForm.handleSubmit
  rw [if_neg h]

/-- Acceptance characterisation of the percent-only form on fully numeric
form data: no errors exactly when `s0`, `x`, `t` are positive and each rate
field lies in `[0, 100]`. -/
lemma pct_formErrors_num_nil_iff (a b c r0 d0 v0 : ℚ) :
    (CalculatorForm.formErrors
        ⟨.num a, .num b, .num c, .num r0, .num d0, .num v0⟩ = [])
      ↔ (0 < a ∧ 0 < b ∧ 0 < c ∧ 0 ≤ r0 ∧ r0 ≤ 100 ∧ 0 ≤ d0 ∧ d0 ≤ 100
          ∧ 0 ≤ v0 ∧ v0 ≤ 100) := by
  rw [pct_formErrors_eq_nil_iff]
  constructor
  · intro h
    have h1 := (pct_validateField_none_iff .s0 a).mp (h .s0)
    have h2 := (pct_validateField_none_iff .x b).mp (h .x)
    have h3 := (pct_validateField_none_iff .t c).mp (h .t)
    have h4 := (pct_validateField_none_iff .r r0).mp (h .r)
    have h5 := (pct_validateField_none_iff .d d0).mp (h .d)
    have h6 := (pct_validateField_none_iff .v v0).mp (h .v)
    exact ⟨h1, h2, h3, h4.1, h4.2, h5.1, h5.2, h6.1, h6.2⟩
  · rintro ⟨h1, h2, h3, h4, h5, h6, h7, h8, h9⟩ k
    cases k <;> simp only [FormData.get] <;> rw [pct_validateField_none_iff]
    · exact h1
    · exact h2
    · exact h3
    · exact ⟨h4, h5⟩
    · exact ⟨h6, h7⟩
    · exact ⟨h8, h9⟩

/-- The default form data submits the percent-to-decimal payload. -/
lemma handleSubmit_default :
    CalculatorForm.handleSubmit fdDefault = some payDefault := by
  rw [CalculatorForm.handleSubmit, if_pos (by decide)]
  simp [FieldValue.toNum, fdDefault, payDefault]
  norm_num

end Frontend

open BlackScholes Frontend

/-- C1: put-call parity — for every input with `s0 > 0`, `x > 0`, `t > 0`
and `v > 0`, `price` succeeds and the returned prices satisfy
`call - put = s0*exp(-d*t) - x*exp(-r*t)` within absolute tolerance `1e-9`
(in this real-valued model the identity is exact). -/
theorem put_call_parity (i : CalculationInput)
    (hs : 0 < i.s0) (hx : 0 < i.x) (ht : 0 < i.t) (hv : 0 < i.v) :
    ∃ res, price i = .ok res ∧
      |res.call_price - res.put_price
        - (i.s0 * Real.exp (-i.d * i.t) - i.x * Real.exp (-i.r * i.t))|
        ≤ 1e-9 := by
  have hval : violations i = [] := (violations_eq_nil_iff i).mpr ⟨hs, hx, ht, hv⟩
  refine ⟨pricingFormula i, by unfold price; rw [if_pos hval], ?_⟩
  rw [parity_core, sub_self, abs_zero]
  norm_num

/-- C1 witness: put-call parity applied at a concrete valid input. -/
theorem put_call_parity_check :
    ∃ res, price ⟨50, 40, 2, 0.03, 0.01, 0.3⟩ = .ok res ∧
      |res.call_price - res.put_price
        - ((50:ℝ) * Real.exp (-(0.01) * 2) - 40 * Real.exp (-(0.03) * 2))|
        ≤ 1e-9 :=
  put_call_parity ⟨50, 40, 2, 0.03, 0.01, 0.3⟩
    (by norm_num) (by norm_num) (by norm_num) (by norm_num)

/-- C2 counterexample: at the reference input
`{s0:100, x:100, t:1, r:0.05, d:0.02, v:0.2}` the pricing formula gives
`d1 = 0.25` exactly (as in the README's documented example response), which
is not within 4 decimal places of the spec's claimed `0.3256`. -/
theorem reference_d1_counterexample :
    ∃ res, price refInput = .ok res ∧ ¬ |res.d1 - 0.3256| ≤ 0.00005 := by
  refine ⟨pricingFormula refInput, price_ref, ?_⟩
  have hd : (pricingFormula refInput).d1 = 0.25 := d1_ref
  rw [hd, abs_sub_comm, show (0.3256:ℝ) - 0.25 = 0.0756 by norm_num,
    abs_of_nonneg (by norm_num : (0:ℝ) ≤ 0.0756)]
  norm_num

/-- C2 (amended): at the reference input the engine reproduces `d1 = 0.25`
and `d2 = 0.05` exactly, and the call/put prices satisfy the independently
computed parity reference `call - put = 100*exp(-0.02) - 100*exp(-0.05)`. -/
theorem reference_values_correct :
    ∃ res, price refInput = .ok res ∧ res.d1 = 0.25 ∧ res.d2 = 0.05
      ∧ res.call_price - res.put_price
          = 100 * Real.exp (-(0.02:ℝ)) - 100 * Real.exp (-(0.05:ℝ)) := by
  refine ⟨pricingFormula refInput, price_ref, d1_ref, d2_ref, ?_⟩
  rw [parity_core]
  unfold refInput
  norm_num

/-- C3: batch contract — `total = successful + failed`, `successful` is the
length of `results`, `results` are exactly the priced valid inputs in their
original relative order, and on the three-row scenario whose second row has
`t = -1` the evaluator reports `total = 3`, `successful = 2`, `failed = 1`
with the first and third results, in that order. -/
theorem priceBatch_contract :
    (∀ l, (priceBatch l).total = (priceBatch l).successful + (priceBatch l).failed)
    ∧ (∀ l, (priceBatch l).successful = (priceBatch l).results.length)
    ∧ (∀ l, (priceBatch l).results
        = (l.filter fun i => violations i = []).map pricingFormula)
    ∧ (priceBatch [batchIn1, batchIn2, batchIn3]).total = 3
    ∧ (priceBatch [batchIn1, batchIn2, batchIn3]).successful = 2
    ∧ (priceBatch [batchIn1, batchIn2, batchIn3]).failed = 1
    ∧ (priceBatch [batchIn1, batchIn2, batchIn3]).results
        = [pricingFormula batchIn1, pricingFormula batchIn3] := by
  have htot : ∀ l, (priceBatch l).total
      = (priceBatch l).successful + (priceBatch l).failed := by
    intro l
    induction l with
    | nil => rfl
    | cons i rest ih =>
      by_cases h : violations i = [] <;> simp [priceBatch, h] <;> omega
  have hlen : ∀ l, (priceBatch l).successful = (priceBatch l).results.length := by
    intro l
    induction l with
    | nil => rfl
    | cons i rest ih =>
      by_cases h : violations i = [] <;> simp [priceBatch, h, ih]
  have hres : ∀ l, (priceBatch l).results
      = (l.filter fun i => violations i = []).map pricingFormula := by
    intro l
    induction l with
    | nil => rfl
    | cons i rest ih =>
      by_cases h : violations i = [] <;>
        simp [priceBatch, h, ih, List.filter_cons]
  have h1 : violations batchIn1 = [] := by
    rw [violations_eq_nil_iff]; unfold batchIn1; norm_num
  have h2 : ¬ violations batchIn2 = [] := by
    rw [violations_eq_nil_iff]; unfold batchIn2; norm_num
  have h3 : violations batchIn3 = [] := by
    rw [violations_eq_nil_iff]; unfold batchIn3; norm_num
  refine ⟨htot, hlen, hres, ?_, ?_, ?_, ?_⟩ <;> simp [priceBatch, h1, h2, h3]

/-- C3 witness: the accounting invariant applied to a concrete batch. -/
theorem priceBatch_contract_check :
    (priceBatch [batchIn1, batchIn2, batchIn3]).total
      = (priceBatch [batchIn1, batchIn2, batchIn3]).successful
        + (priceBatch [batchIn1, batchIn2, batchIn3]).failed :=
  priceBatch_contract.1 [batchIn1, batchIn2, batchIn3]

/-- C4 counterexample: the input with `v = 0` violates the claimed
constraint set (`v <= 0`) yet the form collects no violation at all and the
submit handler produces a result (with volatility 0). -/
theorem zero_vol_passes_validation :
    CalculatorForm.formErrors fdZeroVol = []
    ∧ CalculatorForm.handleSubmit fdZeroVol = some ⟨100, 100, 1, 1/20, 1/50, 0⟩ := by
  constructor
  · decide
  · rw [CalculatorForm.handleSubmit, if_pos (by decide)]
    simp [FieldValue.toNum, fdZeroVol]
    norm_num

/-- C4 (amended): every violation the validator produces is collected (all
fields, not only the first); the handler submits exactly when no field has
a violation; each constraint `s0 <= 0`, `x <= 0`, `t <= 0` and `v < 0`
(zero volatility is not flagged) yields its per-field violation; and on the
claim's example with `s0 = -1` the only collected violation mentions `s0`
and nothing is submitted — the spec-modelled engine validator likewise
returns a ValidationError mentioning `s0`. -/
theorem validation_collects_all_violations :
    (∀ (fd : FormData) (k : FieldName) (m : String),
      CalculatorForm.validateField k (fd.get k) = some m →
      (k, m) ∈ CalculatorForm.formErrors fd)
    ∧ (∀ fd : FormData,
        CalculatorForm.handleSubmit fd = none ↔ CalculatorForm.formErrors fd ≠ [])
    ∧ (∀ (fd : FormData) (q : ℚ), fd.s0 = .num q → q ≤ 0 →
        (FieldName.s0, "s0 must be greater than 0") ∈ CalculatorForm.formErrors fd)
    ∧ (∀ (fd : FormData) (q : ℚ), fd.x = .num q → q ≤ 0 →
        (FieldName.x, "x must be greater than 0") ∈ CalculatorForm.formErrors fd)
    ∧ (∀ (fd : FormData) (q : ℚ), fd.t = .num q → q ≤ 0 →
        (FieldName.t, "t must be greater than 0") ∈ CalculatorForm.formErrors fd)
    ∧ (∀ (fd : FormData) (q : ℚ), fd.v = .num q → q < 0 →
        (FieldName.v, "v should be between 0 and 100") ∈ CalculatorForm.formErrors fd)
    ∧ CalculatorForm.formErrors fdNegS0
        = [(FieldName.s0, "s0 must be greater than 0")]
    ∧ CalculatorForm.handleSubmit fdNegS0 = none
    ∧ price ⟨-1, 100, 1, 0.05, 0.02, 0.2⟩
        = .error ["s0 must be greater than 0"] := by
  have hsub : ∀ fd : FormData,
      CalculatorForm.handleSubmit fd = none ↔ CalculatorForm.formErrors fd ≠ [] := by
    intro fd
    unfold CalculatorForm.handleSubmit
    split_ifs with h <;> simp [h]
  have hs0 : ∀ (fd : FormData) (q : ℚ), fd.s0 = .num q → q ≤ 0 →
      (FieldName.s0, "s0 must be greater than 0") ∈ CalculatorForm.formErrors fd := by
    intro fd q he hq
    refine pct_formErrors_complete fd .s0 _ ?_
    show CalculatorForm.validateField .s0 fd.s0 = _
    rw [he]
    simp only [CalculatorForm.validateField]
    rw [if_pos hq]
    rfl
  have hx : ∀ (fd : FormData) (q : ℚ), fd.x = .num q → q ≤ 0 →
      (FieldName.x, "x must be greater than 0") ∈ CalculatorForm.formErrors fd := by
    intro fd q he hq
    refine pct_formErrors_complete fd .x _ ?_
    show CalculatorForm.validateField .x fd.x = _
    rw [he]
    simp only [CalculatorForm.validateField]
    rw [if_pos hq]
    rfl
  have ht : ∀ (fd : FormData) (q : ℚ), fd.t = .num q → q ≤ 0 →
      (FieldName.t, "t must be greater than 0") ∈ CalculatorForm.formErrors fd := by
    intro fd q he hq
    refine pct_formErrors_complete fd .t _ ?_
    show CalculatorForm.validateField .t fd.t = _
    rw [he]
    simp only [CalculatorForm.validateField]
    rw [if_pos hq]
    rfl
  have hvneg : ∀ (fd : FormData) (q : ℚ), fd.v = .num q → q < 0 →
      (FieldName.v, "v should be between 0 and 100") ∈ CalculatorForm.formErrors fd := by
    intro fd q he hq
    refine pct_formErrors_complete fd .v _ ?_
    show CalculatorForm.validateField .v fd.v = _
    rw [he]
    simp only [CalculatorForm.validateField]
    rw [if_pos (Or.inl hq)]
    rfl
  have e1 : CalculatorForm.validateField .s0 (.num (-1))
      = some "s0 must be greater than 0" := by
    simp only [CalculatorForm.validateField]
    rw [if_pos (by norm_num : (-1:ℚ) ≤ 0)]
    rfl
  have e2 : CalculatorForm.validateField .x (.num 100) = none := by
    rw [pct_validateField_none_iff]
    norm_num
  have e3 : CalculatorForm.validateField .t (.num 1) = none := by
    rw [pct_validateField_none_iff]
    norm_num
  have e4 : CalculatorForm.validateField .r (.num 0.05) = none := by
    rw [pct_validateField_none_iff]
    norm_num
  have e5 : CalculatorForm.validateField .d (.num 0.02) = none := by
    rw [pct_validateField_none_iff]
    norm_num
  have e6 : CalculatorForm.validateField .v (.num 0.2) = none := by
    rw [pct_validateField_none_iff]
    norm_num
  have hfe : CalculatorForm.formErrors fdNegS0
      = [(FieldName.s0, "s0 must be greater than 0")] := by
    simp [CalculatorForm.formErrors, formKeys, FormData.get, fdNegS0,
      e1, e2, e3, e4, e5, e6]
  have hengine : price ⟨-1, 100, 1, 0.05, 0.02, 0.2⟩
      = .error ["s0 must be greater than 0"] := by
    have hviol : violations ⟨-1, 100, 1, 0.05, 0.02, 0.2⟩
        = ["s0 must be greater than 0"] := by
      unfold violations
      rw [if_pos (by norm_num : ((-1:ℝ)) ≤ 0),
        if_neg (by norm_num : ¬ ((100:ℝ) ≤ 0)),
        if_neg (by norm_num : ¬ ((1:ℝ) ≤ 0)),
        if_neg (by norm_num : ¬ ((0.2:ℝ) ≤ 0))]
      rfl
    unfold price
    rw [hviol]
    rfl
  refine ⟨fun fd k m h => pct_formErrors_complete fd k m h, hsub,
    hs0, hx, ht, hvneg, hfe, ?_, hengine⟩
  rw [hsub]
  rw [hfe]
  simp

/-- C4 witness: the collection lemma applied at the example form data. -/
theorem validation_collects_all_violations_check :
    (FieldName.s0, "s0 must be greater than 0")
      ∈ CalculatorForm.formErrors fdNegS0 :=
  validation_collects_all_violations.2.2.1 fdNegS0 (-1) rfl (by norm_num)

/-- C5 counterexample: volatility `v = 0` produces no violation in either
rate-input mode, and a negative volatility is rejected with a message other
than the claimed `v must be greater than 0`; with `v = 0` the whole form
submits. -/
theorem zero_vol_not_rejected :
    ToggleForm.validateField .decimal .v (.num 0) = none
    ∧ ToggleForm.validateField .percent .v (.num 0) = none
    ∧ ToggleForm.validateField .decimal .v (.num (-1))
        = some "v must be non-negative"
    ∧ ToggleForm.handleSubmit .decimal ⟨.num 100, .num 100, .num 1,
        .num 0, .num 0, .num 0⟩ = some ⟨100, 100, 1, 0, 0, 0⟩ := by
  refine ⟨by decide, by decide, by decide, ?_⟩
  rw [ToggleForm.handleSubmit, if_pos (by decide)]
  rfl

/-- C5 (amended): a strictly negative volatility is rejected — decimal mode
reports `v must be non-negative`, percent mode reports the `[0, 100]` range
message — and submission is blocked; `v = 0` itself is accepted. -/
theorem negative_vol_rejected :
    ∀ q : ℚ, q < 0 →
      ToggleForm.validateField .decimal .v (.num q)
          = some "v must be non-negative"
      ∧ ToggleForm.validateField .percent .v (.num q)
          = some "v should be between 0 and 100 when entered as a percentage"
      ∧ (∀ (mode : ToggleForm.RateMode) (fd : FormData), fd.v = .num q →
          ToggleForm.handleSubmit mode fd = none)
      ∧ ToggleForm.validateField .decimal .v (.num 0) = none := by
  intro q hq
  have hdec : ToggleForm.validateField .decimal .v (.num q)
      = some "v must be non-negative" := by
    simp only [ToggleForm.validateField]
    rw [if_pos hq]
    rfl
  have hpct : ToggleForm.validateField .percent .v (.num q)
      = some "v should be between 0 and 100 when entered as a percentage" := by
    simp only [ToggleForm.validateField]
    rw [if_pos (Or.inl hq)]
    rfl
  refine ⟨hdec, hpct, ?_, by decide⟩
  intro mode fd he
  refine toggle_handleSubmit_eq_none mode fd ?_
  have hmem : (FieldName.v, (match mode with
      | .decimal => "v must be non-negative"
      | .percent => "v should be between 0 and 100 when entered as a percentage"))
      ∈ ToggleForm.formErrors mode fd := by
    refine toggle_formErrors_complete mode fd .v _ ?_
    show ToggleForm.validateField mode .v fd.v = _
    rw [he]
    cases mode
    · exact hpct
    · exact hdec
  exact List.ne_nil_of_mem hmem

/-- C5 witness: the rejection applied at `v = -1`. -/
theorem negative_vol_rejected_check :
    ToggleForm.validateField .decimal .v (.num (-1))
        = some "v must be non-negative"
    ∧ ToggleForm.validateField .percent .v (.num (-1))
        = some "v should be between 0 and 100 when entered as a percentage"
    ∧ (∀ (mode : ToggleForm.RateMode) (fd : FormData), fd.v = .num (-1) →
        ToggleForm.handleSubmit mode fd = none)
    ∧ ToggleForm.validateField .decimal .v (.num 0) = none :=
  negative_vol_rejected (-1) (by norm_num)

/-- C6 counterexample: an input with `s0, x, t, v > 0` but `r = -1` is
rejected by the percent-only form with a `[0, 100]` range violation on `r`
(no submission), and the decimal-mode validator likewise rejects the
negative rate — range checks on `r` and `d` are applied. -/
theorem negative_rate_rejected :
    CalculatorForm.formErrors ⟨.num 100, .num 100, .num 1, .num (-1), .num 2, .num 20⟩
        = [(FieldName.r, "r should be between 0 and 100")]
    ∧ CalculatorForm.handleSubmit
        ⟨.num 100, .num 100, .num 1, .num (-1), .num 2, .num 20⟩ = none
    ∧ ToggleForm.validateField .decimal .r (.num (-1))
        = some "r must be non-negative" := by
  refine ⟨by decide, ?_, by decide⟩
  rw [CalculatorForm.handleSubmit, if_neg (by decide)]

/-- C6 (amended): the forms do range-check the rates — the percent-only
form submits exactly when `s0, x, t` are positive and each of `r`, `d`, `v`
lies in `[0, 100]`, and the decimal-mode validator accepts a rate exactly
when it is non-negative (negative rates are always rejected). -/
theorem rate_range_checked :
    (∀ a b c r0 d0 v0 : ℚ,
      (CalculatorForm.handleSubmit
          ⟨.num a, .num b, .num c, .num r0, .num d0, .num v0⟩).isSome
        ↔ (0 < a ∧ 0 < b ∧ 0 < c ∧ 0 ≤ r0 ∧ r0 ≤ 100 ∧ 0 ≤ d0 ∧ d0 ≤ 100
            ∧ 0 ≤ v0 ∧ v0 ≤ 100))
    ∧ (∀ q : ℚ, ToggleForm.validateField .decimal .r (.num q) = none ↔ 0 ≤ q)
    ∧ (∀ q : ℚ, ToggleForm.validateField .decimal .d (.num q) = none ↔ 0 ≤ q) := by
  refine ⟨fun a b c r0 d0 v0 => ?_, fun q => ?_, fun q => ?_⟩
  · rw [CalculatorForm.handleSubmit]
    split_ifs with h
    · simp only [Option.isSome_some, true_iff]
      exact (pct_formErrors_num_nil_iff a b c r0 d0 v0).mp h
    · simp only [Option.isSome_none, Bool.false_eq_true, false_iff]
      intro hcon
      exact h ((pct_formErrors_num_nil_iff a b c r0 d0 v0).mpr hcon)
  · simp [ToggleForm.validateField, ite_eq_right_iff, not_lt]
  · simp [ToggleForm.validateField, ite_eq_right_iff, not_lt]

/-- C6 witness: the acceptance characterisation applied at the default row
values. -/
theorem rate_range_checked_check :
    (CalculatorForm.handleSubmit
        ⟨.num 100, .num 100, .num 1, .num 5, .num 2, .num 20⟩).isSome
      ↔ (0 < (100:ℚ) ∧ 0 < (100:ℚ) ∧ 0 < (1:ℚ) ∧ 0 ≤ (5:ℚ) ∧ (5:ℚ) ≤ 100
          ∧ 0 ≤ (2:ℚ) ∧ (2:ℚ) ≤ 100 ∧ 0 ≤ (20:ℚ) ∧ (20:ℚ) ≤ 100) :=
  rate_range_checked.1 100 100 1 5 2 20

/-- C7: the batch table's `onChange` handlers substitute `0` for a missing
or unparseable value (`parseFloat(...) || 0`) and record no per-field
failure, whereas the single-calculation form reports `is required` for the
same situation — evaluated at the failing input (clearing the `r` field of
a batch row). -/
theorem batch_missing_value_coerced_to_zero :
    BatchCalculator.onChangeValue none = 0
    ∧ (BatchCalculator.updateCalculation ⟨100, 100, 1, 5, 2, 20⟩ .r none).r = 0
    ∧ CalculatorForm.validateField .r .empty = some "r is required" := by
  refine ⟨rfl, rfl, by decide⟩

/-- C8: the normal CDF satisfies `N(0) = 0.5` (within `1e-12`; exactly, in
this model), the reflection identity `N(-x) = 1 - N(x)` for every `x`
(within `1e-9`; exactly), and always returns a value in `[0, 1]`. -/
theorem normalCDF_contract :
    |normalCDF 0 - 0.5| ≤ 1e-12
    ∧ (∀ x : ℝ, |normalCDF (-x) - (1 - normalCDF x)| ≤ 1e-9)
    ∧ ∀ x : ℝ, normalCDF x ∈ Set.Icc (0:ℝ) 1 := by
  refine ⟨?_, fun x => ?_, fun x => ⟨normalCDF_nonneg x, normalCDF_le_one x⟩⟩
  · rw [normalCDF_zero]
    norm_num
  · rw [normalCDF_neg, sub_self, abs_zero]
    norm_num

/-- C8 witness: the range property applied at a concrete argument. -/
theorem normalCDF_contract_check : normalCDF 0.7 ∈ Set.Icc (0:ℝ) 1 :=
  normalCDF_contract.2.2 0.7

/-- C9: determinism — `price` is a pure function of its input record, so
two calls on identical inputs return identical outputs and there is no
side-effecting state for a call to mutate. -/
theorem price_deterministic (i j : CalculationInput) (h : i = j) :
    price i = price j := by
  rw [h]

/-- C9 witness: determinism applied at a concrete input. -/
theorem price_deterministic_check :
    price ⟨100, 100, 1, 0.05, 0.02, 0.2⟩ = price ⟨100, 100, 1, 0.05, 0.02, 0.2⟩ :=
  price_deterministic ⟨100, 100, 1, 0.05, 0.02, 0.2⟩
    ⟨100, 100, 1, 0.05, 0.02, 0.2⟩ rfl

/-- C10: whenever the percent-only form's submit handler produces a payload
for `onSubmit`, that payload has `s0, x, t > 0` and `r`, `d`, `v` in
`[0, 1]` — each rate passed the `[0, 100]` validation and was divided by
100, so the engine never receives a percent-scaled rate from this form. -/
theorem percent_form_submits_decimal_rates :
    ∀ (fd : FormData) (p : Payload), CalculatorForm.handleSubmit fd = some p →
      0 < p.s0 ∧ 0 < p.x ∧ 0 < p.t ∧ 0 ≤ p.r ∧ p.r ≤ 1 ∧ 0 ≤ p.d ∧ p.d ≤ 1
        ∧ 0 ≤ p.v ∧ p.v ≤ 1 := by
  intro fd p h
  unfold CalculatorForm.handleSubmit at h
  by_cases hfe : CalculatorForm.formErrors fd = []
  case neg =>
    rw [if_neg hfe] at h
    exact absurd h (by simp)
  rw [if_pos hfe] at h
  have hv := (pct_formErrors_eq_nil_iff fd).mp hfe
  injection h with h
  subst h
  obtain ⟨s0v, xv, tv, rv, dv, vv⟩ := fd
  have h1 := hv .s0
  have h2 := hv .x
  have h3 := hv .t
  have h4 := hv .r
  have h5 := hv .d
  have h6 := hv .v
  simp only [FormData.get] at h1 h2 h3 h4 h5 h6
  cases s0v with
  | empty => exact absurd h1 (by simp [CalculatorForm.validateField])
  | nan => exact absurd h1 (by simp [CalculatorForm.validateField])
  | num q1 =>
  cases xv with
  | empty => exact absurd h2 (by simp [CalculatorForm.validateField])
  | nan => exact absurd h2 (by simp [CalculatorForm.validateField])
  | num q2 =>
  cases tv with
  | empty => exact absurd h3 (by simp [CalculatorForm.validateField])
  | nan => exact absurd h3 (by simp [CalculatorForm.validateField])
  | num q3 =>
  cases rv with
  | empty => exact absurd h4 (by simp [CalculatorForm.validateField])
  | nan => exact absurd h4 (by simp [CalculatorForm.validateField])
  | num q4 =>
  cases dv with
  | empty => exact absurd h5 (by simp [CalculatorForm.validateField])
  | nan => exact absurd h5 (by simp [CalculatorForm.validateField])
  | num q5 =>
  cases vv with
  | empty => exact absurd h6 (by simp [CalculatorForm.validateField])
  | nan => exact absurd h6 (by simp [CalculatorForm.validateField])
  | num q6 =>
  rw [pct_validateField_none_iff] at h1 h2 h3 h4 h5 h6
  simp only [FieldValue.toNum]
  refine ⟨h1, h2, h3, ?_, ?_, ?_, ?_, ?_, ?_⟩
  · exact div_nonneg h4.1 (by norm_num)
  · rw [div_le_one (by norm_num : (0:ℚ) < 100)]
    exact h4.2
  · exact div_nonneg h5.1 (by norm_num)
  · rw [div_le_one (by norm_num : (0:ℚ) < 100)]
    exact h5.2
  · exact div_nonneg h6.1 (by norm_num)
  · rw [div_le_one (by norm_num : (0:ℚ) < 100)]
    exact h6.2

/-- C10 witness: the boundary invariant applied at the form's default
values. -/
theorem percent_form_submits_decimal_rates_check :
    0 < payDefault.s0 ∧ 0 < payDefault.x ∧ 0 < payDefault.t
    ∧ 0 ≤ payDefault.r ∧ payDefault.r ≤ 1 ∧ 0 ≤ payDefault.d ∧ payDefault.d ≤ 1
    ∧ 0 ≤ payDefault.v ∧ payDefault.v ≤ 1 :=
  percent_form_submits_decimal_rates fdDefault payDefault handleSubmit_default
